import Mathlib

/-!
Shallow embedding of `src/scorer.cpp`, a two-player scoreboard controller:
two debounced push-buttons increment two two-digit scores rendered on
common-anode seven-segment displays; first to 21, win by 2; a 3-second
button hold pulses a reset pin; the winner's score blinks.

Machine integers: the digit counters `d1_num`/`d2_num` are `uint8_t` in the
source, modelled as `Nat` with `% 256` at every mutation, and the combined
score `d1*10+d2` is truncated with `% 256` exactly where the source stores it
in a `uint8_t`.  `millis()` timestamps are `unsigned long` (32 bits on AVR);
the source's wrap-safe subtraction `millis() - start` is modelled as
`(now - start) % 2^32`, which agrees with the C computation whenever time is
monotone (`start ≤ now`), the only regime the theorems quantify over.

Side effects (`digitalWrite`, `pinMode`, `delay`) are modelled as an emitted
event list.
-/

namespace Scorer

/-- A pin-level event emitted by the program: a `digitalWrite`, a `delay`,
or a `pinMode(pin, OUTPUT)` call. -/
inductive Ev where
  | write (pin : Nat) (level : Bool)
  | delayMs (ms : Nat)
  | pinModeOutput (pin : Nat)
deriving DecidableEq, Repr

/-- Logic level LOW (`false`). -/
def LOW : Bool := false

/-- Logic level HIGH (`true`). -/
def HIGH : Bool := true

/-- `#define ON LOW` under `COMMON_ANODE`: a segment line driven LOW is lit. -/
def ON : Bool := LOW

/-- `#define OFF HIGH` under `COMMON_ANODE`. -/
def OFF : Bool := HIGH

/-- `Player` struct: pin assignments, score digits (uint8_t), button hold
start time (unsigned long), current and previous raw button states. -/
structure Player where
  d1_pins : List Nat
  d2_pins : List Nat
  d1_num : Nat
  d2_num : Nat
  start : Nat
  button_state : Bool
  prev_button_state : Bool
deriving DecidableEq, Repr

/-- The global game state: the two player records plus the winner flags. -/
structure GameState where
  p1 : Player
  p2 : Player
  winner_found : Bool
  p1_is_winner : Bool
deriving DecidableEq, Repr

/-- The `displayLEDs[NUM_DIGITS][SEVEN_SEGMENTS]` table of `scorer.cpp`
(lines 99-111), row by row, segments A..G.  Rows are exactly the source's
initializers; the catch-all row is never consulted because every access is
bounds-checked first (`num < 0 || num >= NUM_DIGITS`). -/
def displayLEDs : Nat → List Bool
  | 0 => [ON, ON, ON, ON, ON, ON, OFF]
  | 1 => [OFF, ON, ON, ON, ON, ON, OFF]
  | 2 => [ON, ON, OFF, ON, ON, OFF, ON]
  | 3 => [ON, ON, ON, ON, OFF, OFF, ON]
  | 4 => [OFF, ON, ON, OFF, OFF, ON, ON]
  | 5 => [ON, OFF, ON, ON, OFF, ON, ON]
  | 6 => [ON, OFF, ON, ON, ON, ON, ON]
  | 7 => [ON, ON, ON, OFF, OFF, OFF, OFF]
  | 8 => [ON, ON, ON, ON, ON, ON, ON]
  | 9 => [ON, ON, ON, ON, OFF, ON, ON]
  | _ => []

/-- `displayFirstDigit(p, num)`: drive the seven tens-place segment lines;
out-of-range values drive every line to `OFF` (blank). -/
def displayFirstDigit (p : Player) (num : Int) : List Ev :=
  (List.range 7).map fun i =>
    if num < 0 ∨ 10 ≤ num then
      Ev.write (p.d1_pins.getD i 0) OFF
    else
      Ev.write (p.d1_pins.getD i 0) ((displayLEDs num.toNat).getD i OFF)

/-- `displaySecondDigit(p, num)`: same as `displayFirstDigit` on the
ones-place pins. -/
def displaySecondDigit (p : Player) (num : Int) : List Ev :=
  (List.range 7).map fun i =>
    if num < 0 ∨ 10 ≤ num then
      Ev.write (p.d2_pins.getD i 0) OFF
    else
      Ev.write (p.d2_pins.getD i 0) ((displayLEDs num.toNat).getD i OFF)

/-- `blinkWinner(p)`: blank both digits, delay 500ms, restore the actual
digits, delay 500ms. -/
def blinkWinner (p : Player) : List Ev :=
  displayFirstDigit p (-1) ++ displaySecondDigit p (-1)
    ++ [Ev.delayMs 500]
    ++ displayFirstDigit p (Int.ofNat p.d1_num)
    ++ displaySecondDigit p (Int.ofNat p.d2_num)
    ++ [Ev.delayMs 500]

/-- `reset_game()`: the body is the single call `pinMode(RESET, OUTPUT)`
(RESET is pin 11); it reads and writes no program variable, so its
translation is just the emitted event. -/
def reset_game : List Ev := [Ev.pinModeOutput 11]

/-- `handle_button(p)`: read the raw level, classify press / hold / release,
update the score on a release edge while no winner exists, fire the reset
after a 3000ms hold, and shift the 1-step button history.  `winner_found`
is the global flag read by the release branch; `reading` is the value
`digitalRead` returns this cycle; `now` is what `millis()` returns. -/
def handle_button (winner_found : Bool) (p : Player) (reading : Bool) (now : Nat) :
    Player × List Ev :=
  let q := { p with button_state := reading }
  if q.button_state && !q.prev_button_state then
    ({ q with start := now, prev_button_state := q.button_state }, [Ev.delayMs 200])
  else if q.button_state && q.prev_button_state then
    if 3000 ≤ (now - q.start) % 4294967296 then
      ({ q with prev_button_state := q.button_state }, reset_game)
    else
      ({ q with prev_button_state := q.button_state }, [])
  else if !q.button_state && q.prev_button_state then
    if !winner_found then
      let d2 := (q.d2_num + 1) % 256
      if 10 ≤ d2 then
        ({ q with d1_num := (q.d1_num + 1) % 256, d2_num := 0,
                  prev_button_state := q.button_state }, [])
      else
        ({ q with d2_num := d2, prev_button_state := q.button_state }, [])
    else
      ({ q with prev_button_state := q.button_state }, [])
  else
    ({ q with prev_button_state := q.button_state }, [])

/-- The win-evaluation block of `loop()` (lines 267-277): combine each
player's digits into a `uint8_t` score and check win-by-2 at 21, player 1
first.  `loop()` only enters this block when `winner_found` is false. -/
def checkWin (s : GameState) : GameState :=
  let p1_score := (s.p1.d1_num * 10 + s.p1.d2_num) % 256
  let p2_score := (s.p2.d1_num * 10 + s.p2.d2_num) % 256
  if 21 ≤ p1_score ∧ p2_score + 1 < p1_score then
    { s with winner_found := true, p1_is_winner := true }
  else if 21 ≤ p2_score ∧ p1_score + 1 < p2_score then
    { s with winner_found := true }
  else
    s

/-- The four unconditional display calls at the top of `loop()`
(lines 256-259). -/
def renderScores (s : GameState) : List Ev :=
  displayFirstDigit s.p1 (Int.ofNat s.p1.d1_num)
    ++ displaySecondDigit s.p1 (Int.ofNat s.p1.d2_num)
    ++ displayFirstDigit s.p2 (Int.ofNat s.p2.d1_num)
    ++ displaySecondDigit s.p2 (Int.ofNat s.p2.d2_num)

/-- One iteration of `loop()`: render both scores, handle both buttons
(`r1`/`t1` and `r2`/`t2` are the respective `digitalRead`/`millis` values),
then either evaluate the win condition or blink the winner. -/
def loopStep (s : GameState) (r1 : Bool) (t1 : Nat) (r2 : Bool) (t2 : Nat) :
    GameState × List Ev :=
  let ev0 := renderScores s
  let h1 := handle_button s.winner_found s.p1 r1 t1
  let h2 := handle_button s.winner_found s.p2 r2 t2
  let s1 : GameState := { s with p1 := h1.1, p2 := h2.1 }
  if !s1.winner_found then
    (checkWin s1, ev0 ++ h1.2 ++ h2.2)
  else if s1.p1_is_winner then
    (s1, ev0 ++ h1.2 ++ h2.2 ++ blinkWinner s1.p1)
  else
    (s1, ev0 ++ h1.2 ++ h2.2 ++ blinkWinner s1.p2)

/-- The state `setup()` establishes: both players zeroed with their fixed
pin assignments, all flags false. -/
def initState : GameState :=
  { p1 := { d1_pins := [2, 3, 4, 5, 6, 7, 8]
            d2_pins := [14, 15, 16, 17, 18, 19, 20]
            d1_num := 0, d2_num := 0, start := 0
            button_state := LOW, prev_button_state := LOW }
    p2 := { d1_pins := [22, 24, 26, 28, 30, 32, 34]
            d2_pins := [23, 25, 27, 29, 31, 33, 35]
            d1_num := 0, d2_num := 0, start := 0
            button_state := LOW, prev_button_state := LOW }
    winner_found := false
    p1_is_winner := false }

/-- States reachable from `setup()` by iterating `loop()` under arbitrary
button inputs and timestamps. -/
inductive Reachable : GameState → Prop
  | init : Reachable initState
  | step (s : GameState) (r1 : Bool) (t1 : Nat) (r2 : Bool) (t2 : Nat) :
      Reachable s → Reachable (loopStep s r1 t1 r2 t2).1

/-- Run `handle_button` over a list of (reading, millis) samples, recording
whether the reset pin was ever configured (i.e. whether `reset_game` ran). -/
def runButton (wf : Bool) (p : Player) : List (Bool × Nat) → Player × Bool
  | [] => (p, false)
  | (r, t) :: rest =>
    let h := handle_button wf p r t
    let k := runButton wf h.1 rest
    (k.1, (h.2.any fun e => decide (e = Ev.pinModeOutput 11)) || k.2)

/-- Iterate `loop()` from a state over a list of button-reading pairs
(timestamps fixed at 0), keeping only the state. -/
def steps (s : GameState) (l : List (Bool × Bool)) : GameState :=
  l.foldl (fun s rb => (loopStep s rb.1 0 rb.2 0).1) s

/-- Modelled from the spec: the §4.1 digit table, giving for each digit the
list of segments A..G that must be LIT (`true` = lit).  This is the spec's
description, kept separate from the source's `displayLEDs` so the two can
be compared. -/
def specDigitSegments : Nat → List Bool
  | 0 => [true, true, true, true, true, true, false]
  | 1 => [false, true, true, false, false, false, false]
  | 2 => [true, true, false, true, true, false, true]
  | 3 => [true, true, true, true, false, false, true]
  | 4 => [false, true, true, false, false, true, true]
  | 5 => [true, false, true, true, false, true, true]
  | 6 => [true, false, true, true, true, true, true]
  | 7 => [true, true, true, false, false, false, false]
  | 8 => [true, true, true, true, true, true, true]
  | 9 => [true, true, true, true, false, true, true]
  | _ => []

/-- The drive levels the spec's table demands: a lit segment is driven `ON`
(active-low), an unlit one `OFF`. -/
def specLevels (d : Nat) : List Bool :=
  (specDigitSegments d).map fun b => if b then ON else OFF

/-! ## Helper lemmas -/

lemma hb_d2_le (wf : Bool) (p : Player) (r : Bool) (t : Nat) (h : p.d2_num ≤ 9) :
    (handle_button wf p r t).1.d2_num ≤ 9 := by
  cases wf <;> cases r <;> cases hp : p.prev_button_state <;>
    simp_all [handle_button] <;> split_ifs <;> simp_all <;> omega

lemma hb_digits_frozen (p : Player) (r : Bool) (t : Nat) :
    (handle_button true p r t).1.d1_num = p.d1_num ∧
    (handle_button true p r t).1.d2_num = p.d2_num := by
  cases r <;> cases hp : p.prev_button_state <;>
    simp_all [handle_button] <;> split_ifs <;> simp_all

lemma hb_hold (wf : Bool) (p : Player) (t : Nat)
    (hprev : p.prev_button_state = true)
    (hel : 3000 ≤ (t - p.start) % 4294967296) :
    handle_button wf p true t =
      ({ p with button_state := true, prev_button_state := true }, reset_game) := by
  simp [handle_button, hprev, hel]

lemma checkWin_p1 (s : GameState) : (checkWin s).p1 = s.p1 := by
  simp only [checkWin]
  split_ifs <;> rfl

lemma checkWin_p2 (s : GameState) : (checkWin s).p2 = s.p2 := by
  simp only [checkWin]
  split_ifs <;> rfl

lemma loopStep_fst (s : GameState) (r1 : Bool) (t1 : Nat) (r2 : Bool) (t2 : Nat) :
    (loopStep s r1 t1 r2 t2).1 =
      if s.winner_found = false then
        checkWin { s with p1 := (handle_button s.winner_found s.p1 r1 t1).1,
                          p2 := (handle_button s.winner_found s.p2 r2 t2).1 }
      else
        { s with p1 := (handle_button s.winner_found s.p1 r1 t1).1,
                 p2 := (handle_button s.winner_found s.p2 r2 t2).1 } := by
  cases hw : s.winner_found <;> simp [loopStep, hw] <;> split <;> rfl

/-! ## Claim theorems -/

/-- C2 (code bug evidence): the render table row for digit 1 is
`{OFF, ON, ON, ON, ON, ON, OFF}`, which drives segments B, C, D, E and F
active instead of exactly B and C as the §4.1 digit table (and the source
file's own header comment, `1: 1,0,0,1,1,1,1  0x9E`) demand; in particular
`displayFirstDigit` at value 1 drives the segment-D line (pin 5 of player 1)
to the active level.  Every other digit row matches the table, and
out-of-range values drive all seven lines inactive. -/
theorem c2_digit_one_table_bug :
    displayLEDs 1 = [OFF, ON, ON, ON, ON, ON, OFF] ∧
    specLevels 1 = [OFF, ON, ON, OFF, OFF, OFF, OFF] ∧
    displayLEDs 1 ≠ specLevels 1 ∧
    (displayFirstDigit initState.p1 1).getD 3 (Ev.delayMs 0) = Ev.write 5 ON ∧
    displayLEDs 0 = specLevels 0 ∧ displayLEDs 2 = specLevels 2 ∧
    displayLEDs 3 = specLevels 3 ∧ displayLEDs 4 = specLevels 4 ∧
    displayLEDs 5 = specLevels 5 ∧ displayLEDs 6 = specLevels 6 ∧
    displayLEDs 7 = specLevels 7 ∧ displayLEDs 8 = specLevels 8 ∧
    displayLEDs 9 = specLevels 9 ∧
    displayFirstDigit initState.p1 (-1) =
      [Ev.write 2 OFF, Ev.write 3 OFF, Ev.write 4 OFF, Ev.write 5 OFF,
       Ev.write 6 OFF, Ev.write 7 OFF, Ev.write 8 OFF] ∧
    displaySecondDigit initState.p1 10 =
      [Ev.write 14 OFF, Ev.write 15 OFF, Ev.write 16 OFF, Ev.write 17 OFF,
       Ev.write 18 OFF, Ev.write 19 OFF, Ev.write 20 OFF] := by
  decide

/-- C10: `reset_game` performs no state mutation — along the reset path of
`handle_button` (button held, 3000ms elapsed) the emitted events are exactly
`reset_game`'s single `pinMode(RESET=11, OUTPUT)` call, the player's digit
fields and hold start time are unchanged, and the path is identical whether
or not a winner exists (the winner flags are neither read nor written). -/
theorem c10_reset_game_pure (wf : Bool) (p : Player) (t : Nat)
    (hprev : p.prev_button_state = true)
    (hel : 3000 ≤ (t - p.start) % 4294967296) :
    reset_game = [Ev.pinModeOutput 11] ∧
    (handle_button wf p true t).2 = reset_game ∧
    (handle_button wf p true t).1.d1_num = p.d1_num ∧
    (handle_button wf p true t).1.d2_num = p.d2_num ∧
    (handle_button wf p true t).1.start = p.start ∧
    handle_button true p true t = handle_button false p true t := by
  rw [hb_hold wf p t hprev hel, hb_hold true p t hprev hel, hb_hold false p t hprev hel]
  simp [reset_game]

/-- Witness for C10 at a concrete held player and timestamp. -/
theorem c10_reset_game_pure_witness :
    reset_game = [Ev.pinModeOutput 11] ∧
    (handle_button true { initState.p1 with prev_button_state := true } true 3000).2 = reset_game ∧
    (handle_button true { initState.p1 with prev_button_state := true } true 3000).1.d1_num
      = ({ initState.p1 with prev_button_state := true } : Player).d1_num ∧
    (handle_button true { initState.p1 with prev_button_state := true } true 3000).1.d2_num
      = ({ initState.p1 with prev_button_state := true } : Player).d2_num ∧
    (handle_button true { initState.p1 with prev_button_state := true } true 3000).1.start
      = ({ initState.p1 with prev_button_state := true } : Player).start ∧
    handle_button true { initState.p1 with prev_button_state := true } true 3000
      = handle_button false { initState.p1 with prev_button_state := true } true 3000 :=
  c10_reset_game_pure true { initState.p1 with prev_button_state := true } 3000 rfl (by decide)

/-- A player about to see a release edge with the tens counter at the
`uint8_t` maximum: digits (255, 9), button previously pressed. -/
def cxP3 : Player :=
  { initState.p1 with d1_num := 255, d2_num := 9,
                      button_state := true, prev_button_state := true }

/-- C3 (counterexample): at the state with `tens_digit = 255` and
`ones_digit = 9` (no winner, ones digit in range, as the claim requires) a
release edge does not increase the combined score by 1: the `uint8_t`
tens counter wraps 255 → 0, so the combined score drops from 2559 to 0. -/
theorem c3_release_increment_cex :
    cxP3.d2_num = 9 ∧ cxP3.d2_num ≤ 9 ∧
    (handle_button false cxP3 false 0).1.d1_num = 0 ∧
    (handle_button false cxP3 false 0).1.d2_num = 0 ∧
    cxP3.d1_num * 10 + cxP3.d2_num + 1 = 2560 ∧
    (handle_button false cxP3 false 0).1.d1_num * 10
        + (handle_button false cxP3 false 0).1.d2_num ≠ 2560 := by
  decide

/-- C3 (amended): with no winner found, `ones_digit ≤ 9` and additionally
`tens_digit < 255` (no `uint8_t` wrap of the tens counter), a release edge
increases the combined score by exactly 1, with the 9 → 0 wrap of the ones
digit carrying into the tens digit in the same update. -/
theorem c3_release_increment_amended (p : Player) (t : Nat)
    (h9 : p.d2_num ≤ 9) (hlt : p.d1_num < 255) (hprev : p.prev_button_state = true) :
    (handle_button false p false t).1.d1_num * 10 + (handle_button false p false t).1.d2_num
      = p.d1_num * 10 + p.d2_num + 1 ∧
    (p.d2_num = 9 →
      (handle_button false p false t).1.d2_num = 0 ∧
      (handle_button false p false t).1.d1_num = p.d1_num + 1) ∧
    (p.d2_num < 9 →
      (handle_button false p false t).1.d2_num = p.d2_num + 1 ∧
      (handle_button false p false t).1.d1_num = p.d1_num) := by
  have e1 : (p.d2_num + 1) % 256 = p.d2_num + 1 := Nat.mod_eq_of_lt (by omega)
  have e2 : (p.d1_num + 1) % 256 = p.d1_num + 1 := Nat.mod_eq_of_lt (by omega)
  simp only [handle_button, hprev, e1, e2]
  split_ifs <;> simp_all <;> omega

/-- A held player at digits (1, 9), one release away from 20. -/
def carryP : Player :=
  { initState.p1 with d1_num := 1, d2_num := 9, prev_button_state := true }

/-- Witness for C3 (amended) at digits (1, 9): 19 + 1 = 20 with a carry. -/
theorem c3_release_increment_amended_witness :
    (handle_button false carryP false 0).1.d1_num * 10
        + (handle_button false carryP false 0).1.d2_num
      = carryP.d1_num * 10 + carryP.d2_num + 1 ∧
    (carryP.d2_num = 9 →
      (handle_button false carryP false 0).1.d2_num = 0 ∧
      (handle_button false carryP false 0).1.d1_num = carryP.d1_num + 1) ∧
    (carryP.d2_num < 9 →
      (handle_button false carryP false 0).1.d2_num = carryP.d2_num + 1 ∧
      (handle_button false carryP false 0).1.d1_num = carryP.d1_num) :=
  c3_release_increment_amended carryP 0 (by decide) (by decide) rfl

/-- C4: once `winner_found` is true, one whole `loop()` iteration — whatever
the two buttons do (press edge, hold, release edge or idle, any timestamps) —
leaves both players' tens and ones digits unchanged. -/
theorem c4_scores_frozen_after_win (s : GameState) (r1 : Bool) (t1 : Nat)
    (r2 : Bool) (t2 : Nat) (hw : s.winner_found = true) :
    (loopStep s r1 t1 r2 t2).1.p1.d1_num = s.p1.d1_num ∧
    (loopStep s r1 t1 r2 t2).1.p1.d2_num = s.p1.d2_num ∧
    (loopStep s r1 t1 r2 t2).1.p2.d1_num = s.p2.d1_num ∧
    (loopStep s r1 t1 r2 t2).1.p2.d2_num = s.p2.d2_num := by
  rw [loopStep_fst]
  simp only [hw, Bool.true_eq_false, if_false]
  exact ⟨(hb_digits_frozen s.p1 r1 t1).1, (hb_digits_frozen s.p1 r1 t1).2,
         (hb_digits_frozen s.p2 r2 t2).1, (hb_digits_frozen s.p2 r2 t2).2⟩

/-- A state in which player 1 has already won 21 : 19. -/
def w7 : GameState :=
  { initState with
    p1 := { initState.p1 with d1_num := 2, d2_num := 1 }
    p2 := { initState.p2 with d1_num := 1, d2_num := 9 }
    winner_found := true
    p1_is_winner := true }

/-- Witness for C4: a press edge on player 1's button in the won state `w7`
changes no digit. -/
theorem c4_scores_frozen_after_win_witness :
    (loopStep w7 true 5 false 0).1.p1.d1_num = w7.p1.d1_num ∧
    (loopStep w7 true 5 false 0).1.p1.d2_num = w7.p1.d2_num ∧
    (loopStep w7 true 5 false 0).1.p2.d1_num = w7.p2.d1_num ∧
    (loopStep w7 true 5 false 0).1.p2.d2_num = w7.p2.d2_num :=
  c4_scores_frozen_after_win w7 true 5 false 0 rfl

/-- C5: in every state reachable from `setup()` through `loop()` iterations,
both players' ones digits are in [0,9]; moreover the update that crosses 10
resets the ones digit to 0 and increments the tens digit in the same
`handle_button` call, so no intermediate state is observable. -/
theorem c5_ones_digit_in_range (s : GameState) (h : Reachable s)
    (p : Player) (t : Nat) (h9 : p.d2_num = 9) (hprev : p.prev_button_state = true) :
    (s.p1.d2_num ≤ 9 ∧ s.p2.d2_num ≤ 9) ∧
    ((handle_button false p false t).1.d2_num = 0 ∧
     (handle_button false p false t).1.d1_num = (p.d1_num + 1) % 256) := by
  constructor
  · induction h with
    | init => exact ⟨by decide, by decide⟩
    | step s r1 t1 r2 t2 hs ih =>
      rw [loopStep_fst]
      by_cases hw : s.winner_found = false
      · rw [if_pos hw]
        constructor
        · rw [show (checkWin _).p1 = _ from checkWin_p1 _]
          exact hb_d2_le _ _ _ _ ih.1
        · rw [show (checkWin _).p2 = _ from checkWin_p2 _]
          exact hb_d2_le _ _ _ _ ih.2
      · rw [if_neg hw]
        exact ⟨hb_d2_le _ _ _ _ ih.1, hb_d2_le _ _ _ _ ih.2⟩
  · simp [handle_button, hprev, h9]

/-- Witness for C5 at the initial state and the concrete carrying player
`carryP`. -/
theorem c5_ones_digit_in_range_witness :
    (initState.p1.d2_num ≤ 9 ∧ initState.p2.d2_num ≤ 9) ∧
    ((handle_button false carryP false 0).1.d2_num = 0 ∧
     (handle_button false carryP false 0).1.d1_num = (carryP.d1_num + 1) % 256) :=
  c5_ones_digit_in_range initState Reachable.init carryP 0 rfl rfl

lemma any_eq_of_forall {α : Type} (l : List α) (f g : α → Bool)
    (h : ∀ x ∈ l, f x = g x) : l.any f = l.any g := by
  induction l with
  | nil => rfl
  | cons a l ih =>
    simp only [List.any_cons, h a (by simp)]
    rw [ih fun x hx => h x (by simp [hx])]

lemma runButton_held (wf : Bool) (holds : List Nat) (tr : Nat) :
    ∀ p : Player, p.prev_button_state = true →
      (runButton wf p ((holds.map fun t => (true, t)) ++ [(false, tr)])).2
        = holds.any fun t => decide (3000 ≤ (t - p.start) % 4294967296) := by
  induction holds with
  | nil =>
    intro p hprev
    cases wf <;> simp [runButton, handle_button, hprev] <;>
      split_ifs <;> simp [runButton]
  | cons t rest ih =>
    intro p hprev
    by_cases hel : 3000 ≤ (t - p.start) % 4294967296
    · have hh := hb_hold wf p t hprev hel
      simp only [List.map_cons, List.cons_append, runButton, hh, reset_game]
      simp [hel]
    · have hh : handle_button wf p true t
          = ({ p with button_state := true, prev_button_state := true }, []) := by
        simp [handle_button, hprev, hel]
      simp only [List.map_cons, List.cons_append, runButton, hh, List.append_eq]
      rw [ih { p with button_state := true, prev_button_state := true } rfl]
      simp [hel]

/-- C6: a press edge at time `t0` records `t0` as the hold start; along any
subsequent continuous hold sampled at the (monotone, wrap-free) times in
`holds` and then released, the reset trigger fires — the RESET pin is
configured — exactly when some sample lies at least 3000ms after `t0`.
In particular a hold spanning 3000ms with a sample past that point fires at
least once, and a button released before 3000ms (all samples earlier) never
fires. -/
theorem c6_hold_fires_reset (wf : Bool) (p : Player) (t0 : Nat)
    (holds : List Nat) (tr : Nat)
    (hidle : p.prev_button_state = false)
    (hmono : ∀ t ∈ holds, t0 ≤ t)
    (hbound : ∀ t ∈ holds, t - t0 < 4294967296) :
    (runButton wf p ((true, t0) :: ((holds.map fun t => (true, t)) ++ [(false, tr)]))).2
      = holds.any fun t => decide (3000 ≤ t - t0) := by
  have hpress : handle_button wf p true t0
      = ({ p with button_state := true, start := t0, prev_button_state := true },
         [Ev.delayMs 200]) := by
    simp [handle_button, hidle]
  simp only [runButton, hpress]
  rw [runButton_held wf holds tr
      { p with button_state := true, start := t0, prev_button_state := true } rfl]
  dsimp only
  rw [show ([Ev.delayMs 200].any fun e => decide (e = Ev.pinModeOutput 11)) = false
      from rfl]
  rw [Bool.false_or]
  exact any_eq_of_forall holds _ _ fun t ht => by
    rw [Nat.mod_eq_of_lt (hbound t ht)]

/-- Witness for C6: pressed at 0, sampled held at 3000, released at 3001 —
the trigger fires (both sides evaluate to `true`). -/
theorem c6_hold_fires_reset_witness :
    (runButton false initState.p1
        ((true, 0) :: (([3000].map fun t => (true, t)) ++ [(false, 3001)]))).2
      = [3000].any fun t => decide (3000 ≤ t - 0) :=
  c6_hold_fires_reset false initState.p1 0 [3000] 3001 rfl (by decide) (by decide)

lemma checkWin_wf_imp (s : GameState)
    (h : s.p1_is_winner = true → s.winner_found = true) :
    (checkWin s).p1_is_winner = true → (checkWin s).winner_found = true := by
  simp only [checkWin]
  split_ifs <;> simp_all

lemma winner_implies_found (s : GameState) (h : Reachable s) :
    s.p1_is_winner = true → s.winner_found = true := by
  induction h with
  | init => intro hx; exact absurd hx (by decide)
  | step s r1 t1 r2 t2 hs ih =>
    rw [loopStep_fst]
    by_cases hw : s.winner_found = false
    · rw [if_pos hw]
      apply checkWin_wf_imp
      dsimp only
      exact ih
    · rw [if_neg hw]
      dsimp only
      intro _
      cases hwf : s.winner_found
      · exact absurd hwf hw
      · rfl

/-- C8: in every reachable state exactly one of {no winner, player 1 is the
winner, player 2 is the winner} holds — `p1_is_winner` can be set only
together with `winner_found` — and once `winner_found` is true one further
`loop()` iteration changes neither winner flag nor the winning identity. -/
theorem c8_exactly_one_winner (s : GameState) (h : Reachable s)
    (r1 : Bool) (t1 : Nat) (r2 : Bool) (t2 : Nat) :
    (s.p1_is_winner = true → s.winner_found = true) ∧
    ((s.winner_found = false ∧ s.p1_is_winner = false) ∨
     (s.winner_found = true ∧ s.p1_is_winner = true) ∨
     (s.winner_found = true ∧ s.p1_is_winner = false)) ∧
    (s.winner_found = true →
      (loopStep s r1 t1 r2 t2).1.winner_found = true ∧
      (loopStep s r1 t1 r2 t2).1.p1_is_winner = s.p1_is_winner) := by
  have hv := winner_implies_found s h
  refine ⟨hv, ?_, ?_⟩
  · cases hw : s.winner_found
    · cases hp : s.p1_is_winner
      · exact Or.inl ⟨rfl, rfl⟩
      · exact absurd (hw ▸ hv hp) (by decide)
    · cases hp : s.p1_is_winner
      · exact Or.inr (Or.inr ⟨rfl, rfl⟩)
      · exact Or.inr (Or.inl ⟨rfl, rfl⟩)
  · intro hw
    rw [loopStep_fst]
    simp [hw]

/-- Witness for C8 at the reachable won state obtained by stepping `w7`'s
predecessor — instantiated at the initial state, the only state reachable
without button activity. -/
theorem c8_exactly_one_winner_witness :
    (initState.p1_is_winner = true → initState.winner_found = true) ∧
    ((initState.winner_found = false ∧ initState.p1_is_winner = false) ∨
     (initState.winner_found = true ∧ initState.p1_is_winner = true) ∨
     (initState.winner_found = true ∧ initState.p1_is_winner = false)) ∧
    (initState.winner_found = true →
      (loopStep initState false 0 false 0).1.winner_found = true ∧
      (loopStep initState false 0 false 0).1.p1_is_winner = initState.p1_is_winner) :=
  c8_exactly_one_winner initState Reachable.init false 0 false 0

/-- C9: while a winner exists, every `loop()` iteration still begins with the
unconditional rendering of BOTH players' current (frozen) scores — the
loser's display is re-driven with its score before any blink event — and only
then come the button events and the winner's blink sequence. -/
theorem c9_loser_still_rendered (s : GameState) (r1 : Bool) (t1 : Nat)
    (r2 : Bool) (t2 : Nat) (hw : s.winner_found = true) :
    (loopStep s r1 t1 r2 t2).2
      = renderScores s
        ++ (handle_button s.winner_found s.p1 r1 t1).2
        ++ (handle_button s.winner_found s.p2 r2 t2).2
        ++ blinkWinner (if s.p1_is_winner then (handle_button s.winner_found s.p1 r1 t1).1
            else (handle_button s.winner_found s.p2 r2 t2).1) ∧
    renderScores s
      = displayFirstDigit s.p1 (Int.ofNat s.p1.d1_num)
        ++ displaySecondDigit s.p1 (Int.ofNat s.p1.d2_num)
        ++ displayFirstDigit s.p2 (Int.ofNat s.p2.d1_num)
        ++ displaySecondDigit s.p2 (Int.ofNat s.p2.d2_num) := by
  refine ⟨?_, rfl⟩
  cases hp : s.p1_is_winner <;> simp [loopStep, hw, hp]

/-- Witness for C9 in the won state `w7` with both buttons idle. -/
theorem c9_loser_still_rendered_witness :
    (loopStep w7 false 0 false 0).2
      = renderScores w7
        ++ (handle_button w7.winner_found w7.p1 false 0).2
        ++ (handle_button w7.winner_found w7.p2 false 0).2
        ++ blinkWinner (if w7.p1_is_winner then (handle_button w7.winner_found w7.p1 false 0).1
            else (handle_button w7.winner_found w7.p2 false 0).1) ∧
    renderScores w7
      = displayFirstDigit w7.p1 (Int.ofNat w7.p1.d1_num)
        ++ displaySecondDigit w7.p1 (Int.ofNat w7.p1.d2_num)
        ++ displayFirstDigit w7.p2 (Int.ofNat w7.p2.d1_num)
        ++ displaySecondDigit w7.p2 (Int.ofNat w7.p2.d2_num) :=
  c9_loser_still_rendered w7 false 0 false 0 rfl

/-- C7 (counterexample): in the won state `w7` one whole `loop()` cycle emits
the winner's NORMAL rendering first (its opening event is the active-level
write of digit 2's segment A on pin 2) and only afterwards the blink
sequence, whose opening event is the inactive-level write on the same pin.
Normal rendering is therefore performed, not forgone, while a winner
exists. -/
theorem c7_blink_not_forgone_cex :
    (loopStep w7 false 0 false 0).2 = renderScores w7 ++ blinkWinner w7.p1 ∧
    (renderScores w7).head? = some (Ev.write 2 ON) ∧
    (blinkWinner w7.p1).head? = some (Ev.write 2 OFF) ∧
    renderScores w7 ≠ [] := by
  decide

/-- C7 (amended): once a winner exists, each `loop()` cycle performs the
blink action IN ADDITION TO (after) the unconditional normal rendering of
both players: the cycle's events are the normal render, the button events,
then blank the winner's two digits, pause 500ms, render the winner's actual
(frozen, pre-cycle) score digits, pause 500ms. -/
theorem c7_blink_after_render_amended (s : GameState) (r1 : Bool) (t1 : Nat)
    (r2 : Bool) (t2 : Nat) (w : Player) (hw : s.winner_found = true)
    (hwin : w = if s.p1_is_winner then (handle_button s.winner_found s.p1 r1 t1).1
        else (handle_button s.winner_found s.p2 r2 t2).1) :
    (loopStep s r1 t1 r2 t2).2
      = renderScores s
        ++ (handle_button s.winner_found s.p1 r1 t1).2
        ++ (handle_button s.winner_found s.p2 r2 t2).2
        ++ (displayFirstDigit w (-1) ++ displaySecondDigit w (-1)
            ++ [Ev.delayMs 500]
            ++ displayFirstDigit w
                (Int.ofNat (if s.p1_is_winner then s.p1.d1_num else s.p2.d1_num))
            ++ displaySecondDigit w
                (Int.ofNat (if s.p1_is_winner then s.p1.d2_num else s.p2.d2_num))
            ++ [Ev.delayMs 500]) := by
  subst hwin
  have f1 := hb_digits_frozen s.p1 r1 t1
  have f2 := hb_digits_frozen s.p2 r2 t2
  cases hp : s.p1_is_winner <;>
    simp [loopStep, blinkWinner, hw, hp, f1.1, f1.2, f2.1, f2.2, List.append_assoc]

/-- Witness for C7 (amended) in the won state `w7` with idle buttons. -/
theorem c7_blink_after_render_amended_witness :
    (loopStep w7 false 0 false 0).2
      = renderScores w7
        ++ (handle_button w7.winner_found w7.p1 false 0).2
        ++ (handle_button w7.winner_found w7.p2 false 0).2
        ++ (displayFirstDigit (handle_button w7.winner_found w7.p1 false 0).1 (-1)
            ++ displaySecondDigit (handle_button w7.winner_found w7.p1 false 0).1 (-1)
            ++ [Ev.delayMs 500]
            ++ displayFirstDigit (handle_button w7.winner_found w7.p1 false 0).1
                (Int.ofNat (if w7.p1_is_winner then w7.p1.d1_num else w7.p2.d1_num))
            ++ displaySecondDigit (handle_button w7.winner_found w7.p1 false 0).1
                (Int.ofNat (if w7.p1_is_winner then w7.p1.d2_num else w7.p2.d2_num))
            ++ [Ev.delayMs 500]) :=
  c7_blink_after_render_amended w7 false 0 false 0
    (handle_button w7.winner_found w7.p1 false 0).1 rfl (by decide)

/-- One press-then-release of both buttons: each player's score goes up
by one and, the scores staying equal, no win condition can fire. -/
def prPair : List (Bool × Bool) := [(true, true), (false, false)]

/-- 25 press/release pairs for both players. -/
def chunk25 : List (Bool × Bool) := (List.replicate 25 prPair).flatten

/-- 5 more shared pairs (both players reach 255), then one press/release of
player 1's button alone (player 1 reaches 256). -/
def tail5 : List (Bool × Bool) :=
  (List.replicate 5 prPair).flatten ++ [(true, false), (false, false)]

/-- The full input trace: 255 shared increments then one extra increment for
player 1. -/
def cxTrace : List (Bool × Bool) :=
  chunk25 ++ (chunk25 ++ (chunk25 ++ (chunk25 ++ (chunk25 ++ (chunk25
    ++ (chunk25 ++ (chunk25 ++ (chunk25 ++ (chunk25 ++ tail5)))))))))

/-- Both players idle at the symmetric score `a`·10+`b`. -/
def cleanState (a b : Nat) : GameState :=
  { initState with
    p1 := { initState.p1 with d1_num := a, d2_num := b }
    p2 := { initState.p2 with d1_num := a, d2_num := b } }

/-- The state the trace `cxTrace` ends in. -/
def cxFinalLit : GameState :=
  { initState with
    p1 := { initState.p1 with d1_num := 25, d2_num := 6 }
    p2 := { initState.p2 with d1_num := 25, d2_num := 5 }
    winner_found := true }

lemma steps_append (s : GameState) (l1 l2 : List (Bool × Bool)) :
    steps s (l1 ++ l2) = steps (steps s l1) l2 := by
  simp [steps, List.foldl_append]

set_option maxRecDepth 100000 in
/-- C1 (counterexample): running `loop()` from the initial state on the
concrete trace `cxTrace` — 256 increments for player 1 against 255 for
player 2, the margin never exceeding 1 so no earlier cycle fires — ends with
`winner_found` set and PLAYER 2 recorded as the winner, although player 2's
combined score (255) does not exceed player 1's (256) plus 1: the `uint8_t`
score `256 % 256 = 0` makes `p2_score > p1_score + 1` hold spuriously.  The
win condition thus fires without the claimed condition being true. -/
theorem c1_win_rule_cex :
    (steps initState cxTrace).winner_found = true ∧
    (steps initState cxTrace).p1_is_winner = false ∧
    (steps initState cxTrace).p1.d1_num * 10 + (steps initState cxTrace).p1.d2_num = 256 ∧
    (steps initState cxTrace).p2.d1_num * 10 + (steps initState cxTrace).p2.d2_num = 255 ∧
    ¬(255 > 256 + 1) := by
  have e1 : steps initState chunk25 = cleanState 2 5 := by decide
  have e2 : steps (cleanState 2 5) chunk25 = cleanState 5 0 := by decide
  have e3 : steps (cleanState 5 0) chunk25 = cleanState 7 5 := by decide
  have e4 : steps (cleanState 7 5) chunk25 = cleanState 10 0 := by decide
  have e5 : steps (cleanState 10 0) chunk25 = cleanState 12 5 := by decide
  have e6 : steps (cleanState 12 5) chunk25 = cleanState 15 0 := by decide
  have e7 : steps (cleanState 15 0) chunk25 = cleanState 17 5 := by decide
  have e8 : steps (cleanState 17 5) chunk25 = cleanState 20 0 := by decide
  have e9 : steps (cleanState 20 0) chunk25 = cleanState 22 5 := by decide
  have e10 : steps (cleanState 22 5) chunk25 = cleanState 25 0 := by decide
  have e11 : steps (cleanState 25 0) tail5 = cxFinalLit := by decide
  have hfin : steps initState cxTrace = cxFinalLit := by
    unfold cxTrace
    rw [steps_append, e1, steps_append, e2, steps_append, e3, steps_append, e4,
        steps_append, e5, steps_append, e6, steps_append, e7, steps_append, e8,
        steps_append, e9, steps_append, e10]
    exact e11
  rw [hfin]
  decide

/-- A no-winner state at 21 : 19 — player 1 satisfies the win rule. -/
def preWin : GameState :=
  { initState with
    p1 := { initState.p1 with d1_num := 2, d2_num := 1 }
    p2 := { initState.p2 with d1_num := 1, d2_num := 9 } }

/-- C1 (amended): when no winner has been found and both combined scores are
at most 255 (no `uint8_t` truncation), the evaluation declares player 1 the
winner iff player 1's combined score is ≥ 21 and exceeds player 2's by at
least 2, declares player 2 the winner iff the symmetric condition holds
(player 1 being checked first), and the two firing conditions can never hold
simultaneously. -/
theorem c1_win_rule_amended (s : GameState)
    (hw : s.winner_found = false) (hp : s.p1_is_winner = false)
    (h1 : s.p1.d1_num * 10 + s.p1.d2_num ≤ 255)
    (h2 : s.p2.d1_num * 10 + s.p2.d2_num ≤ 255) :
    (((checkWin s).winner_found = true ∧ (checkWin s).p1_is_winner = true) ↔
      (21 ≤ s.p1.d1_num * 10 + s.p1.d2_num ∧
        s.p2.d1_num * 10 + s.p2.d2_num + 1 < s.p1.d1_num * 10 + s.p1.d2_num)) ∧
    (((checkWin s).winner_found = true ∧ (checkWin s).p1_is_winner = false) ↔
      (21 ≤ s.p2.d1_num * 10 + s.p2.d2_num ∧
        s.p1.d1_num * 10 + s.p1.d2_num + 1 < s.p2.d1_num * 10 + s.p2.d2_num)) ∧
    ¬((21 ≤ s.p1.d1_num * 10 + s.p1.d2_num ∧
        s.p2.d1_num * 10 + s.p2.d2_num + 1 < s.p1.d1_num * 10 + s.p1.d2_num) ∧
      (21 ≤ s.p2.d1_num * 10 + s.p2.d2_num ∧
        s.p1.d1_num * 10 + s.p1.d2_num + 1 < s.p2.d1_num * 10 + s.p2.d2_num)) := by
  have m1 : (s.p1.d1_num * 10 + s.p1.d2_num) % 256 = s.p1.d1_num * 10 + s.p1.d2_num :=
    Nat.mod_eq_of_lt (by omega)
  have m2 : (s.p2.d1_num * 10 + s.p2.d2_num) % 256 = s.p2.d1_num * 10 + s.p2.d2_num :=
    Nat.mod_eq_of_lt (by omega)
  simp only [checkWin, m1, m2]
  split_ifs <;> refine ⟨?_, ?_, ?_⟩ <;> simp_all <;> omega

/-- Witness for C1 (amended) at 21 : 19, where player 1 is declared winner. -/
theorem c1_win_rule_amended_witness :
    (((checkWin preWin).winner_found = true ∧ (checkWin preWin).p1_is_winner = true) ↔
      (21 ≤ preWin.p1.d1_num * 10 + preWin.p1.d2_num ∧
        preWin.p2.d1_num * 10 + preWin.p2.d2_num + 1 < preWin.p1.d1_num * 10 + preWin.p1.d2_num)) ∧
    (((checkWin preWin).winner_found = true ∧ (checkWin preWin).p1_is_winner = false) ↔
      (21 ≤ preWin.p2.d1_num * 10 + preWin.p2.d2_num ∧
        preWin.p1.d1_num * 10 + preWin.p1.d2_num + 1 < preWin.p2.d1_num * 10 + preWin.p2.d2_num)) ∧
    ¬((21 ≤ preWin.p1.d1_num * 10 + preWin.p1.d2_num ∧
        preWin.p2.d1_num * 10 + preWin.p2.d2_num + 1 < preWin.p1.d1_num * 10 + preWin.p1.d2_num) ∧
      (21 ≤ preWin.p2.d1_num * 10 + preWin.p2.d2_num ∧
        preWin.p1.d1_num * 10 + preWin.p1.d2_num + 1 < preWin.p2.d1_num * 10 + preWin.p2.d2_num)) :=
  c1_win_rule_amended preWin rfl rfl (by decide) (by decide)

end Scorer
